import Mathlib

/-
Verification of the camera-pose coordinate-transform engine and the
velocity estimator of the rain-rendering dataset-preparation code.

Shallow embedding conventions:
- numpy float arithmetic is idealised over the reals; the one place where
  IEEE special values are observable (division of a displacement by an
  elapsed time in the velocity estimator, whose result is then screened
  with an isfinite mask) is modelled with an explicit value type `RVal`
  carrying NaN and signed infinities.
- external collaborators (the pyproj geodetic transformer, the filesystem
  pose lookup) are passed in as function parameters.
- 3-vectors and 3 by 3 matrices are explicit records `V3` and `M3`;
  quaternions are Mathlib `Quaternion ℝ` (numpy-quaternion and Mathlib use
  the same Hamilton product, and numpy quaternion division q1/q2 is
  q1 * q2⁻¹, which is Mathlib division in the division ring).
-/

namespace RainRendering

/-! ### 3-vectors and 3 by 3 matrices (numpy arrays of shape 3 and 3x3) -/

structure V3 where
  x : ℝ
  y : ℝ
  z : ℝ

/-- Componentwise difference of numpy 3-vectors. -/
noncomputable def V3.sub (a b : V3) : V3 := ⟨a.x - b.x, a.y - b.y, a.z - b.z⟩

/-- Scalar times numpy 3-vector. -/
noncomputable def V3.smul (c : ℝ) (v : V3) : V3 := ⟨c * v.x, c * v.y, c * v.z⟩

/-- numpy 3-vector divided by a scalar. -/
noncomputable def V3.divScalar (v : V3) (c : ℝ) : V3 := ⟨v.x / c, v.y / c, v.z / c⟩

/-- Model of `np.dot` on 3-vectors. -/
noncomputable def V3.dot (a b : V3) : ℝ := a.x * b.x + a.y * b.y + a.z * b.z

/-- Model of `np.linalg.norm` on 3-vectors. -/
noncomputable def V3.norm (v : V3) : ℝ := Real.sqrt (v.x ^ 2 + v.y ^ 2 + v.z ^ 2)

/-- A 3 by 3 matrix, stored as its three rows. -/
structure M3 where
  r1 : V3
  r2 : V3
  r3 : V3

/-- Matrix applied to a vector (`@` in numpy). -/
noncomputable def M3.mulVec (m : M3) (v : V3) : V3 := ⟨m.r1.dot v, m.r2.dot v, m.r3.dot v⟩

/-! ### Euler rotations (common/pose.py, class EulerRotation) -/

/-- Model of `math.radians`. -/
noncomputable def radians (d : ℝ) : ℝ := d * (Real.pi / 180)

/-- Model of `math.degrees`. -/
noncomputable def degrees (r : ℝ) : ℝ := r * (180 / Real.pi)

/-- Yaw, pitch, roll in radians (dataclass EulerRotation). -/
structure EulerRotation where
  yaw : ℝ
  pitch : ℝ
  roll : ℝ

/-- Model of `EulerRotation.from_degrees`: degree inputs converted to radians. -/
noncomputable def EulerRotation.from_degrees (yaw pitch roll : ℝ) : EulerRotation :=
  ⟨radians yaw, radians pitch, radians roll⟩

/-- Model of `quaternion.from_rotation_vector v = exp(quaternion(0, v/2))`: the
axis-angle quaternion with angle `norm v` about the axis `v`.  The real-model
convention `x / 0 = 0` together with `sin 0 = 0` reproduces the identity
quaternion at `v = 0`, as numpy produces there. -/
noncomputable def from_rotation_vector (v : V3) : Quaternion ℝ :=
  ⟨Real.cos (v.norm / 2),
   Real.sin (v.norm / 2) * v.x / v.norm,
   Real.sin (v.norm / 2) * v.y / v.norm,
   Real.sin (v.norm / 2) * v.z / v.norm⟩

/-- Model of `quaternion.as_rotation_matrix`: the standard rotation matrix of a
quaternion, each quadratic term divided by the squared norm (numpy divides by
`q.norm()`, the squared modulus, so non-unit quaternions are normalised). -/
noncomputable def as_rotation_matrix (q : Quaternion ℝ) : M3 :=
  let n := Quaternion.normSq q
  ⟨⟨1 - 2 * (q.imJ ^ 2 + q.imK ^ 2) / n,
    2 * (q.imI * q.imJ - q.imK * q.re) / n,
    2 * (q.imI * q.imK + q.imJ * q.re) / n⟩,
   ⟨2 * (q.imI * q.imJ + q.imK * q.re) / n,
    1 - 2 * (q.imI ^ 2 + q.imK ^ 2) / n,
    2 * (q.imJ * q.imK - q.imI * q.re) / n⟩,
   ⟨2 * (q.imI * q.imK - q.imJ * q.re) / n,
    2 * (q.imJ * q.imK + q.imI * q.re) / n,
    1 - 2 * (q.imI ^ 2 + q.imJ ^ 2) / n⟩⟩

/-- Model of `EulerRotation.as_quaternion_xyz`: yaw about world Y, then pitch about the
yaw-rotated X axis, then roll about the pitch-then-yaw-rotated Z axis, composed
by quaternion multiplication. -/
noncomputable def EulerRotation.as_quaternion_xyz (r : EulerRotation) : Quaternion ℝ :=
  let yaw_quat := from_rotation_vector (V3.smul r.yaw ⟨0, 1, 0⟩)
  let yaw := as_rotation_matrix yaw_quat
  let pitch_quat := from_rotation_vector (V3.smul r.pitch (yaw.mulVec ⟨1, 0, 0⟩))
  let pitch := as_rotation_matrix pitch_quat
  let roll_quat := from_rotation_vector (V3.smul r.roll (pitch.mulVec (yaw.mulVec ⟨0, 0, 1⟩)))
  roll_quat * pitch_quat * yaw_quat

/-- Model of `EulerRotation.as_quaternion_frd`: the closed-form aerospace
roll-pitch-yaw half-angle product formula. -/
noncomputable def EulerRotation.as_quaternion_frd (r : EulerRotation) : Quaternion ℝ :=
  let cos_roll := Real.cos (r.roll / 2)
  let sin_roll := Real.sin (r.roll / 2)
  let cos_pitch := Real.cos (r.pitch / 2)
  let sin_pitch := Real.sin (r.pitch / 2)
  let cos_yaw := Real.cos (r.yaw / 2)
  let sin_yaw := Real.sin (r.yaw / 2)
  ⟨cos_roll * cos_pitch * cos_yaw + sin_roll * sin_pitch * sin_yaw,
   sin_roll * cos_pitch * cos_yaw - cos_roll * sin_pitch * sin_yaw,
   cos_roll * sin_pitch * cos_yaw + sin_roll * cos_pitch * sin_yaw,
   cos_roll * cos_pitch * sin_yaw - sin_roll * sin_pitch * cos_yaw⟩

/-- Model of `np.arctan2 y x` (idealised: both arguments exact reals, `arctan2 0 0 = 0`). -/
noncomputable def arctan2 (y x : ℝ) : ℝ :=
  if 0 < x then Real.arctan (y / x)
  else if x < 0 then
    (if 0 ≤ y then Real.arctan (y / x) + Real.pi else Real.arctan (y / x) - Real.pi)
  else
    (if 0 < y then Real.pi / 2 else if y < 0 then -(Real.pi / 2) else 0)

/-- Model of `EulerRotation.from_direction_xyz`: yaw and pitch from a 3-D heading
vector (up axis is Y); the roll cannot be told from the direction vector and
is set to 0. -/
noncomputable def EulerRotation.from_direction_xyz (direction : V3) : EulerRotation :=
  let unit_direction := direction.divScalar direction.norm
  let xz_normal : V3 := ⟨0, 1, 0⟩
  let xz_projection := unit_direction.sub (V3.smul (unit_direction.dot xz_normal) xz_normal)
  let xz_projection_norm := max xz_projection.norm 1e-8
  let unit_xz_projection := xz_projection.divScalar xz_projection_norm
  ⟨arctan2 unit_xz_projection.x unit_xz_projection.z,
   arctan2 (-unit_direction.y) xz_projection_norm,
   0⟩

/-! ### Geodetic positions and camera poses (common/pose.py) -/

/-- dataclass GeoPosition: latitude and longitude in degrees, altitude in
meters. -/
structure GeoPosition where
  lat : ℝ
  lon : ℝ
  altitude : ℝ

/-- dataclass CameraPose. -/
structure CameraPose where
  position : GeoPosition
  rotation : EulerRotation

/-- Model of `earth_to_ned_local_tangent_plane_rotation`: geocentric cartesian to
north-east-down local tangent plane at the origin position. -/
noncomputable def earth_to_ned_local_tangent_plane_rotation (origin_position : GeoPosition) : M3 :=
  let phi := radians origin_position.lat
  let lam := radians origin_position.lon
  ⟨⟨-Real.sin phi * Real.cos lam, -Real.sin phi * Real.sin lam, Real.cos phi⟩,
   ⟨-Real.sin lam, Real.cos lam, 0⟩,
   ⟨-Real.cos phi * Real.cos lam, -Real.cos phi * Real.sin lam, -Real.sin phi⟩⟩

/-- Model of `frd_translation_to_xyz`: reorder (forward, right, down) to
(right, down, forward). -/
noncomputable def frd_translation_to_xyz (frd_translation_vector : V3) : V3 :=
  ⟨frd_translation_vector.y, frd_translation_vector.z, frd_translation_vector.x⟩

/-- Model of `translation(ref_pose, current_pose)`: displacement from the reference to
the current pose expressed in the reference body frame.  The external pyproj
WGS84-to-geocentric conversion `GeoPosition.to_geodetic_xyz` is abstracted as
the parameter `geod`. -/
noncomputable def translation (geod : GeoPosition → V3)
    (ref_pose current_pose : CameraPose) : V3 :=
  let ref_geo_xyz := geod ref_pose.position
  let current_geo_xyz := geod current_pose.position
  let xyz_translation := current_geo_xyz.sub ref_geo_xyz
  let rot_ltp := earth_to_ned_local_tangent_plane_rotation ref_pose.position
  let translation_ned_ltp := rot_ltp.mulVec xyz_translation
  let rot_0 := as_rotation_matrix (1 / ref_pose.rotation.as_quaternion_frd)
  let translation_frd_ltp := rot_0.mulVec translation_ned_ltp
  frd_translation_to_xyz translation_frd_ltp

/-- Model of `rotation(ref_pose, current_pose, coord_system, as_matrix)`: relative
rotation `current_quaternion / ref_quaternion` under the selected convention;
an unrecognised `coord_system` raises ValueError, modelled as `Except.error`.
The `Sum` in the result mirrors the quaternion-or-matrix union return type. -/
noncomputable def rotation (ref_pose current_pose : CameraPose)
    (coord_system : String) (as_matrix : Bool) :
    Except String (Quaternion ℝ ⊕ M3) :=
  if coord_system = "xyz" then
    let rot_quaternion :=
      current_pose.rotation.as_quaternion_xyz / ref_pose.rotation.as_quaternion_xyz
    if as_matrix then .ok (.inr (as_rotation_matrix rot_quaternion))
    else .ok (.inl rot_quaternion)
  else if coord_system = "frd" then
    let rot_quaternion :=
      current_pose.rotation.as_quaternion_frd / ref_pose.rotation.as_quaternion_frd
    if as_matrix then .ok (.inr (as_rotation_matrix rot_quaternion))
    else .ok (.inl rot_quaternion)
  else
    .error ("Invalid coordinate system: " ++ coord_system)

/-! ### NaN-aware model of the pose dataclasses, for `CameraPose.is_complete`
(common/pose.py line 109).  Python floats can be NaN (e.g. parsed from a
pose CSV), which the real-valued model above cannot express; `is_complete`
is exactly the NaN screen, so it is settled on this carrier.  The
`value is not None` guard in the source is vacuous for the float-typed
fields this dataclass declares and is not modelled. -/

inductive PyFloat where
  | num : ℝ → PyFloat
  | nan : PyFloat

/-- Model of `np.isnan` on a Python float. -/
def PyFloat.isnan : PyFloat → Bool
  | .nan => true
  | .num _ => false

namespace Floats

/-- dataclass GeoPosition with possibly-NaN float fields. -/
structure GeoPosition where
  lat : PyFloat
  lon : PyFloat
  altitude : PyFloat

/-- dataclass EulerRotation with possibly-NaN float fields. -/
structure EulerRotation where
  yaw : PyFloat
  pitch : PyFloat
  roll : PyFloat

/-- dataclass CameraPose with possibly-NaN float fields. -/
structure CameraPose where
  position : GeoPosition
  rotation : EulerRotation

/-- Model of `CameraPose.is_complete`: all of lat and lon pass the not-NaN check. -/
def CameraPose.is_complete (p : CameraPose) : Bool :=
  [p.position.lat, p.position.lon].all (fun value => !value.isnan)

end Floats

/-! ### Cable annotations (common/annotations.py).  The shapely geometry
objects carried alongside the raw data are external collaborators and are
not modelled; only the raw points and the parsed fields appear. -/

inductive LineType where
  | VISIBLE_CABLE
  | INFERRED_CABLE
  | NOT_CABLE
  | VISIBLE_OR_INFERRED
deriving DecidableEq

/-- Model of `LineType.from_selector`: maps a selector string to a line type; an
unrecognised selector raises ValueError, modelled as `Except.error`. -/
def LineType.from_selector (selector : String) : Except String LineType :=
  if selector = "visible" then .ok LineType.VISIBLE_CABLE
  else if selector = "all" then .ok LineType.VISIBLE_OR_INFERRED
  else .error ("Invalid selector " ++ selector)

/-- dataclass CableLine (the shapely LineString mirror of `points` is
external and omitted). -/
structure CableLine where
  points : List (List ℝ)
  lineType : LineType

/-- Model of `CableLine.is_visible`. -/
def CableLine.is_visible (c : CableLine) : Bool := c.lineType = LineType.VISIBLE_CABLE

/-- Model of `CableLine.is_inferred`. -/
def CableLine.is_inferred (c : CableLine) : Bool := c.lineType = LineType.INFERRED_CABLE

/-- Model of `CableLine.is_visible_or_inferred`. -/
def CableLine.is_visible_or_inferred (c : CableLine) : Bool :=
  c.lineType = LineType.VISIBLE_CABLE ∨ c.lineType = LineType.INFERRED_CABLE ∨
    c.lineType = LineType.VISIBLE_OR_INFERRED

inductive PowerlinePoleType where
  | TOWER
  | STICK
deriving DecidableEq

/-- dataclass PowerlinePole (bounding box corners as (top, left) pairs). -/
structure PowerlinePole where
  top_left : ℝ × ℝ
  bottom_right : ℝ × ℝ
  poleType : PowerlinePoleType

/-- dataclass ExclusionZone (the shapely Polygon is external and omitted). -/
structure ExclusionZone where
  top_left : ℝ × ℝ
  bottom_right : ℝ × ℝ

/-- dataclass ImageAnnotations. -/
structure ImageAnnotations where
  relative_image_path : String
  exclusion_zones : List ExclusionZone
  powerline_poles : List PowerlinePole
  cable_lines : List CableLine
  pose : Option CameraPose

/-- Model of `ImageAnnotations.cables(selector)`: filter the cable lines by the
selector; an unrecognised selector raises ValueError, modelled as
`Except.error`. -/
def ImageAnnotations.cables (a : ImageAnnotations) (selector : String) :
    Except String (List CableLine) :=
  if selector = "visible" then
    .ok (a.cable_lines.filter (fun cable => cable.is_visible))
  else if selector = "inferred" then
    .ok (a.cable_lines.filter (fun cable => cable.is_inferred))
  else if selector = "all" then
    .ok (a.cable_lines.filter (fun cable => cable.is_visible_or_inferred))
  else
    .error ("Unknown cable selector " ++ selector)

/-! ### Velocity estimator (config/utils.py, compute_camera_motion_velocities)

Timestamps are Python integers (nanoseconds), modelled as `ℤ`.  The pose
lookup `parse_pose(path) if path.exists() else None` for a recording and a
timestamp is the parameter `poseAt`; the pyproj geodetic conversion is the
parameter `geod`.  A velocity value is an `RVal`: numpy float division can
produce NaN and signed infinities, which the isfinite screen then observes.
An IndexError (indexing `[0]` into an empty array) is modelled as `none`. -/

def DEFAULT_SPEED : ℝ := 60

inductive RVal where
  | fin : ℝ → RVal
  | nan : RVal
  | pinf : RVal
  | ninf : RVal
deriving Inhabited

/-- numpy float division `a / b` with its special values: for `b ≠ 0` the
real quotient, else NaN for `0 / 0` and a signed infinity otherwise. -/
noncomputable def npdiv (a b : ℝ) : RVal :=
  if b ≠ 0 then .fin (a / b)
  else if a = 0 then .nan
  else if 0 < a then .pinf
  else .ninf

/-- Multiplication of a velocity by the positive constant 3.6 (m/s to km/h);
the special values are preserved because 3.6 is positive and finite. -/
noncomputable def RVal.times36 : RVal → RVal
  | .fin x => .fin (x * 3.6)
  | .nan => .nan
  | .pinf => .pinf
  | .ninf => .ninf

/-- The numpy mask `velocities == 0` at one element (NaN and the infinities
compare unequal to 0). -/
noncomputable def RVal.eqZeroB : RVal → Bool
  | .fin x => decide (x = 0)
  | _ => false

/-- Model of `np.isfinite` at one element. -/
def RVal.isfiniteB : RVal → Bool
  | .fin _ => true
  | _ => false

/-- The two in-place mask assignments
`velocities_km_per_h[velocities_km_per_h == 0] = DEFAULT_SPEED` and
`velocities_km_per_h[~np.isfinite(velocities_km_per_h)] = DEFAULT_SPEED`,
expressed as one per-element substitution (the first assignment writes the
finite nonzero value 60, so it cannot re-trigger the second mask). -/
noncomputable def substituteDefault (v : RVal) : RVal :=
  if v.eqZeroB then .fin DEFAULT_SPEED
  else if !v.isfiniteB then .fin DEFAULT_SPEED
  else v

/-- Python `sorted` on the timestamp list (ascending, stable). -/
def sortTimestamps (timestamps : List ℤ) : List ℤ :=
  timestamps.mergeSort (fun a b => decide (a ≤ b))

/-- Model of `np.diff`: consecutive differences, in the order the list is given. -/
def npdiff (l : List ℤ) : List ℤ := List.zipWith (fun b a => b - a) l.tail l

/-- Model of `time_diff = np.diff(timestamps) * 1e-9` (seconds): note the source takes
the differences of `timestamps` in their ORIGINAL order, not of
`sorted(timestamps)`. -/
noncomputable def time_diffs (timestamps : List ℤ) : List ℝ :=
  (npdiff timestamps).map (fun (d : ℤ) => (d : ℝ) * 1e-9)

/-- Modelled from the spec: the elapsed times the spec describes, taken over
the consecutive pairs of the ascending-sorted timestamps (spec 4.4: sort
timestamps ascending; for each consecutive pair, compute elapsed time in
seconds as time difference times 1e-9).  Used only to compare with the
source-derived `time_diffs`. -/
noncomputable def spec_sorted_time_diffs (timestamps : List ℤ) : List ℝ :=
  (npdiff (sortTimestamps timestamps)).map (fun (d : ℤ) => (d : ℝ) * 1e-9)

/-- The poses, loaded per sorted timestamp (`None` when the pose file does
not exist). -/
def loadedPoses (poseAt : String → ℤ → Option CameraPose)
    (recording : String) (timestamps : List ℤ) : List (Option CameraPose) :=
  (sortTimestamps timestamps).map (fun timestamp => poseAt recording timestamp)

/-- The displacements in meters over `zip(poses[:-1], poses[1:])`: the norm of
the relative translation when both poses are present, else 0. -/
noncomputable def displacements (geod : GeoPosition → V3)
    (poses : List (Option CameraPose)) : List ℝ :=
  List.zipWith
    (fun start_pose end_pose =>
      match start_pose, end_pose with
      | some sp, some ep => (translation geod sp ep).norm
      | _, _ => 0)
    poses.dropLast poses.tail

/-- The N-1 inter-frame velocities in km/h, after the default-speed
substitution masks have been applied. -/
noncomputable def velocities_km_per_h (poseAt : String → ℤ → Option CameraPose)
    (geod : GeoPosition → V3) (recording : String) (timestamps : List ℤ) :
    List RVal :=
  let poses := loadedPoses poseAt recording timestamps
  let velocities_m_per_s :=
    List.zipWith npdiv (displacements geod poses) (time_diffs timestamps)
  (velocities_m_per_s.map RVal.times36).map substituteDefault

/-- Model of `compute_camera_motion_velocities(recording, timestamps)`: a single
timestamp returns the default speed; otherwise the substituted inter-frame
velocities, with the first one duplicated in front.  Indexing `[0]` into an
empty velocity array (the empty-timestamps case) raises IndexError,
modelled as `none`. -/
noncomputable def compute_camera_motion_velocities
    (poseAt : String → ℤ → Option CameraPose) (geod : GeoPosition → V3)
    (recording : String) (timestamps : List ℤ) : Option (List RVal) :=
  if timestamps.length = 1 then some [RVal.fin DEFAULT_SPEED]
  else
    match velocities_km_per_h poseAt geod recording timestamps with
    | [] => none
    | v0 :: rest => some (v0 :: v0 :: rest)

/-! ## Theorems -/

/-- C6: for every single-element timestamp list, the velocity estimator
returns the one-element sequence holding the default speed 60 km/h; in
particular any recording name (such as "rec") with timestamps `[100]`
yields `[60.0]`. -/
theorem single_timestamp_returns_default_speed
    (poseAt : String → ℤ → Option CameraPose) (geod : GeoPosition → V3)
    (recording : String) (t : ℤ) :
    compute_camera_motion_velocities poseAt geod recording [t] =
      some [RVal.fin 60] := by
  simp [compute_camera_motion_velocities, DEFAULT_SPEED]

/-- C10: for an empty timestamp list the velocity estimator does not return
an empty sequence: indexing the first element of the empty velocity array
raises IndexError (modelled as `none`), so the N-inputs-to-N-outputs shape
holds only for N at least 1. -/
theorem empty_timestamps_returns_no_sequence
    (poseAt : String → ℤ → Option CameraPose) (geod : GeoPosition → V3)
    (recording : String) :
    compute_camera_motion_velocities poseAt geod recording [] = none := by
  simp [compute_camera_motion_velocities, velocities_km_per_h, loadedPoses,
    sortTimestamps, displacements, time_diffs, npdiff, List.mergeSort]

/-- C9: `CameraPose.is_complete` holds exactly when neither the latitude nor
the longitude is NaN; the altitude and the rotation components are not
examined, so a pose with NaN altitude and NaN yaw, pitch and roll still
counts as complete. -/
theorem is_complete_checks_only_lat_lon_nan (p : Floats.CameraPose) :
    (p.is_complete = true ↔
      p.position.lat.isnan = false ∧ p.position.lon.isnan = false) ∧
    (Floats.CameraPose.mk ⟨.num 1, .num 2, .nan⟩
      ⟨.nan, .nan, .nan⟩).is_complete = true := by
  refine ⟨?_, rfl⟩
  simp [Floats.CameraPose.is_complete]

/-- C4: every unrecognised convention-selector string fails immediately with
a descriptive error and never falls back to a default: `rotation` errors for
a coordinate system outside xyz and frd, `ImageAnnotations.cables` errors
for a selector outside visible, inferred and all, and
`LineType.from_selector` errors for a selector outside visible and all. -/
theorem unknown_selector_raises
    (ref_pose current_pose : CameraPose) (as_matrix : Bool)
    (a : ImageAnnotations) (s t u : String)
    (hs1 : s ≠ "xyz") (hs2 : s ≠ "frd")
    (ht1 : t ≠ "visible") (ht2 : t ≠ "inferred") (ht3 : t ≠ "all")
    (hu1 : u ≠ "visible") (hu2 : u ≠ "all") :
    rotation ref_pose current_pose s as_matrix =
      .error ("Invalid coordinate system: " ++ s) ∧
    a.cables t = .error ("Unknown cable selector " ++ t) ∧
    LineType.from_selector u = .error ("Invalid selector " ++ u) := by
  refine ⟨?_, ?_, ?_⟩ <;>
    simp [rotation, ImageAnnotations.cables, LineType.from_selector,
      hs1, hs2, ht1, ht2, ht3, hu1, hu2]

theorem unknown_selector_raises_witness :
    (("abc" : String) ≠ "xyz" ∧ ("abc" : String) ≠ "frd" ∧
     ("abc" : String) ≠ "visible" ∧ ("abc" : String) ≠ "inferred" ∧
     ("abc" : String) ≠ "all") ∧
    (rotation ⟨⟨0, 0, 0⟩, ⟨0, 0, 0⟩⟩ ⟨⟨0, 0, 0⟩, ⟨0, 0, 0⟩⟩ "abc" false =
        .error ("Invalid coordinate system: " ++ "abc") ∧
      (ImageAnnotations.mk "img" [] [] [] none).cables "abc" =
        .error ("Unknown cable selector " ++ "abc") ∧
      LineType.from_selector "abc" = .error ("Invalid selector " ++ "abc")) :=
  ⟨⟨by decide, by decide, by decide, by decide, by decide⟩,
    unknown_selector_raises ⟨⟨0, 0, 0⟩, ⟨0, 0, 0⟩⟩ ⟨⟨0, 0, 0⟩, ⟨0, 0, 0⟩⟩
      false (ImageAnnotations.mk "img" [] [] [] none) "abc" "abc" "abc"
      (by decide) (by decide) (by decide) (by decide) (by decide)
      (by decide) (by decide)⟩

/-- C1 (divergence witness): the source computes the elapsed times from the
timestamps in their ORIGINAL order while the poses are loaded for the
SORTED order.  At the unsorted input `[200, 100]` the code produces the
elapsed time `(100 - 200) * 1e-9` for the sorted pose pair `(100, 200)`,
while the sorted consecutive pair the claim describes has elapsed time
`(200 - 100) * 1e-9`; the two disagree. -/
theorem time_diffs_follow_given_order_not_sorted :
    time_diffs [200, 100] = [(-100 : ℝ) * 1e-9] ∧
    spec_sorted_time_diffs [200, 100] = [(100 : ℝ) * 1e-9] ∧
    time_diffs [200, 100] ≠ spec_sorted_time_diffs [200, 100] := by
  refine ⟨?_, ?_, ?_⟩ <;>
    norm_num [time_diffs, spec_sorted_time_diffs, npdiff, sortTimestamps,
      List.mergeSort]

/-- The substituted inter-frame velocity list always has one element fewer
than the timestamp list. -/
theorem length_velocities_km_per_h (poseAt : String → ℤ → Option CameraPose)
    (geod : GeoPosition → V3) (recording : String) (timestamps : List ℤ) :
    (velocities_km_per_h poseAt geod recording timestamps).length =
      timestamps.length - 1 := by
  unfold velocities_km_per_h displacements loadedPoses time_diffs npdiff
    sortTimestamps
  simp only [List.length_map, List.length_zipWith, List.length_mergeSort,
    List.length_dropLast, List.length_tail]
  omega

/-- For at least two timestamps the estimator returns the inter-frame
velocity list with its first element duplicated in front. -/
theorem compute_eq_head_cons (poseAt : String → ℤ → Option CameraPose)
    (geod : GeoPosition → V3) (recording : String) (timestamps : List ℤ)
    (h : 2 ≤ timestamps.length) :
    compute_camera_motion_velocities poseAt geod recording timestamps =
      some ((velocities_km_per_h poseAt geod recording timestamps).headI ::
        velocities_km_per_h poseAt geod recording timestamps) := by
  have hlen := length_velocities_km_per_h poseAt geod recording timestamps
  unfold compute_camera_motion_velocities
  rw [if_neg (by omega : ¬timestamps.length = 1)]
  cases hv : velocities_km_per_h poseAt geod recording timestamps with
  | nil => rw [hv] at hlen; simp at hlen; omega
  | cons v0 rest => simp [hv]

/-- C5: for every input of at least two timestamps the estimator returns a
sequence of exactly N elements: the first computed inter-frame velocity
duplicated as the first element, followed by all N-1 computed velocities in
order. -/
theorem velocities_output_shape (poseAt : String → ℤ → Option CameraPose)
    (geod : GeoPosition → V3) (recording : String) (timestamps : List ℤ)
    (h : 2 ≤ timestamps.length) :
    ∃ vs, compute_camera_motion_velocities poseAt geod recording timestamps =
        some vs ∧
      vs = (velocities_km_per_h poseAt geod recording timestamps).headI ::
        velocities_km_per_h poseAt geod recording timestamps ∧
      (velocities_km_per_h poseAt geod recording timestamps).length =
        timestamps.length - 1 ∧
      vs.length = timestamps.length := by
  refine ⟨_, compute_eq_head_cons poseAt geod recording timestamps h, rfl,
    length_velocities_km_per_h poseAt geod recording timestamps, ?_⟩
  have hlen := length_velocities_km_per_h poseAt geod recording timestamps
  simp [hlen]
  omega

theorem velocities_output_shape_witness :
    2 ≤ ([10, 20] : List ℤ).length ∧
    ∃ vs, compute_camera_motion_velocities (fun _ _ => none)
        (fun _ => ⟨0, 0, 0⟩) "rec" [10, 20] = some vs ∧
      vs = (velocities_km_per_h (fun _ _ => none)
          (fun _ => ⟨0, 0, 0⟩) "rec" [10, 20]).headI ::
        velocities_km_per_h (fun _ _ => none) (fun _ => ⟨0, 0, 0⟩) "rec"
          [10, 20] ∧
      (velocities_km_per_h (fun _ _ => none) (fun _ => ⟨0, 0, 0⟩) "rec"
          [10, 20]).length = ([10, 20] : List ℤ).length - 1 ∧
      vs.length = ([10, 20] : List ℤ).length :=
  ⟨by decide,
    velocities_output_shape (fun _ _ => none) (fun _ => ⟨0, 0, 0⟩) "rec"
      [10, 20] (by decide)⟩

/-- One element after the default-speed substitution is neither NaN, nor an
infinity, nor zero. -/
theorem substituteDefault_not_degenerate (v : RVal) :
    substituteDefault v ≠ RVal.nan ∧ substituteDefault v ≠ RVal.pinf ∧
    substituteDefault v ≠ RVal.ninf ∧ substituteDefault v ≠ RVal.fin 0 := by
  have hfin : ∀ y : ℝ, y ≠ 0 →
      RVal.fin y ≠ RVal.nan ∧ RVal.fin y ≠ RVal.pinf ∧
      RVal.fin y ≠ RVal.ninf ∧ RVal.fin y ≠ RVal.fin 0 := fun y hy =>
    ⟨fun h => RVal.noConfusion h, fun h => RVal.noConfusion h,
     fun h => RVal.noConfusion h, fun h => hy (RVal.fin.inj h)⟩
  have h60 : (60 : ℝ) ≠ 0 := by norm_num
  cases v with
  | fin x =>
    by_cases hx : x = 0
    · have hs : substituteDefault (RVal.fin x) = RVal.fin 60 := by
        simp [substituteDefault, RVal.eqZeroB, hx, DEFAULT_SPEED]
      rw [hs]; exact hfin 60 h60
    · have hs : substituteDefault (RVal.fin x) = RVal.fin x := by
        simp [substituteDefault, RVal.eqZeroB, RVal.isfiniteB, hx]
      rw [hs]; exact hfin x hx
  | nan =>
    have hs : substituteDefault RVal.nan = RVal.fin 60 := by
      simp [substituteDefault, RVal.eqZeroB, RVal.isfiniteB, DEFAULT_SPEED]
    rw [hs]; exact hfin 60 h60
  | pinf =>
    have hs : substituteDefault RVal.pinf = RVal.fin 60 := by
      simp [substituteDefault, RVal.eqZeroB, RVal.isfiniteB, DEFAULT_SPEED]
    rw [hs]; exact hfin 60 h60
  | ninf =>
    have hs : substituteDefault RVal.ninf = RVal.fin 60 := by
      simp [substituteDefault, RVal.eqZeroB, RVal.isfiniteB, DEFAULT_SPEED]
    rw [hs]; exact hfin 60 h60

/-- C3: with at least two timestamps, every per-interval velocity that is
exactly zero or non-finite (missing poses give zero displacement; equal
timestamps give zero elapsed time) is replaced by the default speed, so no
element of the returned sequence is NaN, infinite, or zero. -/
theorem velocities_never_nan_inf_or_zero
    (poseAt : String → ℤ → Option CameraPose) (geod : GeoPosition → V3)
    (recording : String) (timestamps : List ℤ)
    (h : 2 ≤ timestamps.length) :
    ∃ vs, compute_camera_motion_velocities poseAt geod recording timestamps =
        some vs ∧
      ∀ v ∈ vs, v ≠ RVal.nan ∧ v ≠ RVal.pinf ∧ v ≠ RVal.ninf ∧
        v ≠ RVal.fin 0 := by
  refine ⟨_, compute_eq_head_cons poseAt geod recording timestamps h, ?_⟩
  intro v hv
  have hmem : v ∈ velocities_km_per_h poseAt geod recording timestamps := by
    rcases List.mem_cons.mp hv with h1 | h1
    · subst h1
      have hlen := length_velocities_km_per_h poseAt geod recording timestamps
      cases hvel : velocities_km_per_h poseAt geod recording timestamps with
      | nil => rw [hvel] at hlen; simp at hlen; omega
      | cons a l => simp
    · exact h1
  have hsub : ∃ y, substituteDefault y = v := by
    simp only [velocities_km_per_h] at hmem
    rcases List.mem_map.mp hmem with ⟨y, _, hy⟩
    exact ⟨y, hy⟩
  rcases hsub with ⟨y, hy⟩
  rw [← hy]
  exact substituteDefault_not_degenerate y

theorem velocities_never_nan_inf_or_zero_witness :
    2 ≤ ([7, 3, 3] : List ℤ).length ∧
    ∃ vs, compute_camera_motion_velocities (fun _ _ => none)
        (fun _ => ⟨0, 0, 0⟩) "rec" [7, 3, 3] = some vs ∧
      ∀ v ∈ vs, v ≠ RVal.nan ∧ v ≠ RVal.pinf ∧ v ≠ RVal.ninf ∧
        v ≠ RVal.fin 0 :=
  ⟨by decide,
    velocities_never_nan_inf_or_zero (fun _ _ => none) (fun _ => ⟨0, 0, 0⟩)
      "rec" [7, 3, 3] (by decide)⟩

/-- An axis-angle quaternion is a unit quaternion (also at the zero vector,
where it is the identity). -/
theorem normSq_from_rotation_vector (v : V3) :
    Quaternion.normSq (from_rotation_vector v) = 1 := by
  have hnn : (0 : ℝ) ≤ v.x ^ 2 + v.y ^ 2 + v.z ^ 2 := by positivity
  simp only [from_rotation_vector, Quaternion.normSq_def']
  by_cases h : v.x ^ 2 + v.y ^ 2 + v.z ^ 2 = 0
  · have hx : v.x = 0 := by nlinarith [sq_nonneg v.x, sq_nonneg v.y, sq_nonneg v.z]
    have hy : v.y = 0 := by nlinarith [sq_nonneg v.x, sq_nonneg v.y, sq_nonneg v.z]
    have hz : v.z = 0 := by nlinarith [sq_nonneg v.x, sq_nonneg v.y, sq_nonneg v.z]
    simp [V3.norm, hx, hy, hz]
  · have hpos : (0 : ℝ) < v.x ^ 2 + v.y ^ 2 + v.z ^ 2 := lt_of_le_of_ne hnn (Ne.symm h)
    have hnpos : 0 < v.norm := Real.sqrt_pos.mpr hpos
    have hsq : v.norm ^ 2 = v.x ^ 2 + v.y ^ 2 + v.z ^ 2 := Real.sq_sqrt hnn
    have hne : v.norm ≠ 0 := ne_of_gt hnpos
    field_simp
    nlinarith [Real.sin_sq_add_cos_sq (v.norm / 2), hsq]

/-- The xyz-convention quaternion is a product of three axis-angle
quaternions, hence a unit quaternion. -/
theorem normSq_as_quaternion_xyz (r : EulerRotation) :
    Quaternion.normSq r.as_quaternion_xyz = 1 := by
  simp only [EulerRotation.as_quaternion_xyz, map_mul,
    normSq_from_rotation_vector, mul_one]

theorem as_quaternion_xyz_ne_zero (r : EulerRotation) :
    r.as_quaternion_xyz ≠ 0 := by
  intro h
  have h1 := normSq_as_quaternion_xyz r
  rw [h, map_zero] at h1
  exact zero_ne_one h1

/-- The frd-convention quaternion is a unit quaternion (the aerospace
half-angle formula is the componentwise product of three unit
quaternions). -/
theorem normSq_as_quaternion_frd (r : EulerRotation) :
    Quaternion.normSq r.as_quaternion_frd = 1 := by
  simp only [EulerRotation.as_quaternion_frd, Quaternion.normSq_def']
  linear_combination
    (Real.sin (r.pitch / 2) ^ 2 + Real.cos (r.pitch / 2) ^ 2) *
        (Real.sin (r.yaw / 2) ^ 2 + Real.cos (r.yaw / 2) ^ 2) *
        Real.sin_sq_add_cos_sq (r.roll / 2) +
      (Real.sin (r.yaw / 2) ^ 2 + Real.cos (r.yaw / 2) ^ 2) *
        Real.sin_sq_add_cos_sq (r.pitch / 2) +
      Real.sin_sq_add_cos_sq (r.yaw / 2)

/-- C2: for every camera pose P, the relative rotation of P against itself in
the xyz convention is the identity quaternion, and the relative translation
of P against itself is (exactly, hence within 1e-6 m) the zero 3-vector,
for every geodetic conversion function. -/
theorem rotation_self_identity_translation_self_zero
    (geod : GeoPosition → V3) (P : CameraPose) :
    rotation P P "xyz" false = .ok (.inl 1) ∧
    translation geod P P = ⟨0, 0, 0⟩ := by
  constructor
  · have hne := as_quaternion_xyz_ne_zero P.rotation
    simp [rotation, div_self hne]
  · have hsub : ∀ w : V3, w.sub w = ⟨0, 0, 0⟩ := by
      intro w; simp [V3.sub]
    have hmv : ∀ m : M3, m.mulVec ⟨0, 0, 0⟩ = ⟨0, 0, 0⟩ := by
      intro m; simp [M3.mulVec, V3.dot]
    simp [translation, hsub, hmv, frd_translation_to_xyz]

/-- C7: zero Euler angles give the identity quaternion under both the xyz and
the frd convention. -/
theorem zero_euler_angles_give_identity_quaternions :
    (EulerRotation.from_degrees 0 0 0).as_quaternion_xyz = 1 ∧
    (EulerRotation.from_degrees 0 0 0).as_quaternion_frd = 1 := by
  have hdeg : EulerRotation.from_degrees 0 0 0 = ⟨0, 0, 0⟩ := by
    simp [EulerRotation.from_degrees, radians]
  rw [hdeg]
  have hzero : ∀ v : V3, V3.smul 0 v = ⟨0, 0, 0⟩ := by
    intro v; simp [V3.smul]
  have hfr0 : from_rotation_vector ⟨0, 0, 0⟩ = 1 := by
    apply Quaternion.ext <;> norm_num [from_rotation_vector, V3.norm]
  constructor
  · simp [EulerRotation.as_quaternion_xyz, hzero, hfr0]
  · apply Quaternion.ext <;> norm_num [EulerRotation.as_quaternion_frd]

/-- C8: a rotation derived from a direction vector always has roll 0, and the
direction (0, 0, 1), straight forward with up axis Y, yields yaw 0, pitch 0
and roll 0. -/
theorem from_direction_zero_roll_and_forward (d : V3)
    (_hd : d ≠ ⟨0, 0, 0⟩) :
    (EulerRotation.from_direction_xyz d).roll = 0 ∧
    EulerRotation.from_direction_xyz ⟨0, 0, 1⟩ = ⟨0, 0, 0⟩ := by
  constructor
  · simp [EulerRotation.from_direction_xyz]
  · have hmax : max (1 : ℝ) 1e-8 = 1 := max_eq_left (by norm_num)
    simp only [EulerRotation.from_direction_xyz, V3.norm, V3.divScalar,
      V3.dot, V3.smul, V3.sub]
    norm_num [hmax, arctan2, Real.arctan_zero]

theorem from_direction_zero_roll_witness :
    ((⟨0, 0, 1⟩ : V3) ≠ ⟨0, 0, 0⟩) ∧
    ((EulerRotation.from_direction_xyz ⟨0, 0, 1⟩).roll = 0 ∧
      EulerRotation.from_direction_xyz ⟨0, 0, 1⟩ = ⟨0, 0, 0⟩) :=
  ⟨fun h => one_ne_zero (congrArg V3.z h),
    from_direction_zero_roll_and_forward ⟨0, 0, 1⟩
      (fun h => one_ne_zero (congrArg V3.z h))⟩

end RainRendering
